import Mathlib

/-!
Verification of the Shodan-Telegram-Bot repository.

This file shallowly embeds the parts of the code that the verified claims
are about: the template catalog and query builder (templates.py), the
pagination keyboard (keyboards.py), the conversation handlers and the
authorization gate (handlers.py), and the account-info cache
(shodan_client.py).  Python strings are modelled as Lean Strings (lists of
characters); the Python string primitives used by the code (strip, split
with a maxsplit bound, replace, startswith, int parsing, decimal printing)
are given explicit executable models below.
-/

namespace ShodanSpec

/-! ### Python string primitives -/

/-- Whitespace test used by the model of Python str.strip.
The model covers the ASCII whitespace characters; the code never feeds
non-ASCII whitespace into strip in the verified flows. -/
def isWS (c : Char) : Bool :=
  c == ' ' || c == '\t' || c == '\n' || c == '\r' || c == '\x0b' || c == '\x0c'

/-- Drop whitespace from both ends of a character list. -/
def stripChars (l : List Char) : List Char :=
  ((l.dropWhile isWS).reverse.dropWhile isWS).reverse

/-- Model of Python str.strip(). -/
def pyStrip (s : String) : String :=
  String.mk (stripChars s.data)

/-- Is the first list a prefix of the second. -/
def starts : List Char → List Char → Bool
  | [], _ => true
  | _ :: _, [] => false
  | p :: ps, c :: cs => p == c && starts ps cs

/-- Model of Python str.startswith(pat). -/
def strStarts (s pat : String) : Bool :=
  starts pat.data s.data

/-- Does pat occur as a contiguous subsequence. -/
def containsSeq (pat : List Char) : List Char → Bool
  | [] => pat.isEmpty
  | c :: cs => starts pat (c :: cs) || containsSeq pat cs

/-- Model of the Python substring test (pat in s). -/
def strContains (s pat : String) : Bool :=
  containsSeq pat.data s.data

/-- Fuel-driven worker for replaceSeq; the fuel only needs to dominate the
length of the scanned list, which shrinks by at least one per step. -/
def replaceFuel (pat rep : List Char) : Nat → List Char → List Char
  | _, [] => []
  | 0, l => l
  | f + 1, c :: cs =>
    if !pat.isEmpty && starts pat (c :: cs) then
      rep ++ replaceFuel pat rep f (cs.drop (pat.length - 1))
    else
      c :: replaceFuel pat rep f cs

/-- Replace every non-overlapping occurrence of pat, scanning left to
right, as Python str.replace does.  An empty pattern is treated as a
no-op (the code only ever replaces nonempty placeholder patterns). -/
def replaceSeq (pat rep s : List Char) : List Char :=
  replaceFuel pat rep s.length s

/-- Model of Python str.replace. -/
def strReplace (s pat rep : String) : String :=
  String.mk (replaceSeq pat.data rep.data s.data)

/-- Split off everything before the first occurrence of sep; the second
component is the remainder after sep when sep occurs. -/
def breakOn (sep : Char) : List Char → List Char × Option (List Char)
  | [] => ([], none)
  | c :: cs =>
    if c == sep then
      ([], some cs)
    else
      let r := breakOn sep cs
      (c :: r.1, r.2)

/-- Split on sep at most maxsplit times, keeping the remainder whole,
as Python str.split(sep, maxsplit) does. -/
def splitAtMost (sep : Char) : Nat → List Char → List (List Char)
  | 0, s => [s]
  | k + 1, s =>
    match breakOn sep s with
    | (a, none) => [a]
    | (a, some rest) => a :: splitAtMost sep k rest

/-- Model of Python s.split(sep, maxsplit) for a one-character separator. -/
def pySplit (s : String) (sep : Char) (maxsplit : Nat) : List String :=
  (splitAtMost sep maxsplit s.data).map String.mk

/-- Fuel-driven worker for natChars; any fuel with n less than 10 ^ fuel
produces the full digit string. -/
def natCharsFuel : Nat → Nat → List Char
  | 0, _ => []
  | f + 1, n =>
    if n < 10 then
      [Nat.digitChar n]
    else
      natCharsFuel f (n / 10) ++ [Nat.digitChar (n % 10)]

/-- Decimal digits of a natural number, most significant first
(the model of Python str(n) for nonnegative n). -/
def natChars (n : Nat) : List Char :=
  natCharsFuel (n + 1) n

/-- Model of Python str(n) for a natural number. -/
def natStr (n : Nat) : String :=
  String.mk (natChars n)

/-- Accumulate the value of a digit string; none on any non-digit. -/
def digitsAux : Nat → List Char → Option Nat
  | acc, [] => some acc
  | acc, c :: cs =>
    if c.isDigit then
      digitsAux (10 * acc + (c.toNat - 48)) cs
    else
      none

/-- Value of a nonempty all-digit character list. -/
def digitsVal (l : List Char) : Option Nat :=
  if l.isEmpty then none else digitsAux 0 l

/-- Parse an optional sign followed by digits. -/
def pyIntChars (l : List Char) : Option Int :=
  match l with
  | [] => none
  | c :: cs =>
    if c = '-' then (digitsVal cs).map fun v => -(v : Int)
    else if c = '+' then (digitsVal cs).map fun v => (v : Int)
    else (digitsVal (c :: cs)).map fun v => (v : Int)

/-- Model of Python int(s): surrounding whitespace is ignored, an optional
sign is followed by decimal digits; none models a raised ValueError.
(Underscore digit grouping is not modelled; the code never produces it.) -/
def pyInt (s : String) : Option Int :=
  pyIntChars (stripChars s.data)

/-! ### templates.py: the template catalog and the query builder -/

/-- A fill-in parameter of a search template (templates.py SearchParam). -/
structure SearchParam where
  name : String
  description : String
  placeholder : String
  required : Bool := true
deriving DecidableEq

/-- A pre-built search template (templates.py SearchTemplate). -/
structure SearchTemplate where
  id : String
  name : String
  description : String
  emoji : String
  query_template : String
  params : List SearchParam
  category : String
  «example» : String
  facets : String := ""
  tags : List String := []
deriving DecidableEq

/-- The full template catalog (templates.py TEMPLATES). -/
def TEMPLATES : List SearchTemplate := [
  { id := "net_provider",
    name := "Cari Provider / ISP",
    description := "Cari semua perangkat milik ISP / provider tertentu di suatu negara",
    emoji := "📶",
    query_template := "org:\"{org}\" country:\"{country}\"",
    params := [
      { name := "org", description := "Nama ISP/Provider", placeholder := "Telkom Indonesia" },
      { name := "country", description := "Kode negara (2 huruf)", placeholder := "ID" }],
    category := "network",
    «example» := "org:\"Telkom Indonesia\" country:\"ID\"",
    tags := ["isp", "provider", "telkom"] },
  { id := "net_port_country",
    name := "Port Terbuka di Negara",
    description := "Cari perangkat dengan port tertentu terbuka di suatu negara",
    emoji := "🔌",
    query_template := "port:{port} country:\"{country}\"",
    params := [
      { name := "port", description := "Nomor port", placeholder := "22" },
      { name := "country", description := "Kode negara (2 huruf)", placeholder := "ID" }],
    category := "network",
    «example» := "port:22 country:\"ID\"",
    tags := ["port", "ssh", "open"] },
  { id := "net_service_city",
    name := "Service di Kota",
    description := "Cari service tertentu di kota spesifik",
    emoji := "🏙️",
    query_template := "product:\"{product}\" city:\"{city}\" country:\"{country}\"",
    params := [
      { name := "product", description := "Nama service/product", placeholder := "nginx" },
      { name := "city", description := "Nama kota", placeholder := "Jakarta" },
      { name := "country", description := "Kode negara", placeholder := "ID" }],
    category := "network",
    «example» := "product:\"nginx\" city:\"Jakarta\" country:\"ID\"",
    tags := ["service", "city"] },
  { id := "net_asn",
    name := "Cari by ASN",
    description := "Cari perangkat berdasarkan Autonomous System Number",
    emoji := "🔢",
    query_template := "asn:{asn}",
    params := [
      { name := "asn", description := "ASN number (contoh: AS17974)", placeholder := "AS17974" }],
    category := "network",
    «example» := "asn:AS17974",
    tags := ["asn", "bgp"] },
  { id := "net_subnet",
    name := "Scan Subnet / CIDR",
    description := "Cari perangkat dalam subnet tertentu",
    emoji := "🔀",
    query_template := "net:{cidr}",
    params := [
      { name := "cidr", description := "Subnet CIDR", placeholder := "202.134.0.0/16" }],
    category := "network",
    «example» := "net:202.134.0.0/16",
    tags := ["subnet", "cidr", "network"] },
  { id := "net_hostname",
    name := "Cari Hostname",
    description := "Cari perangkat berdasarkan hostname/domain",
    emoji := "🏷️",
    query_template := "hostname:\"{hostname}\"",
    params := [
      { name := "hostname", description := "Hostname atau domain", placeholder := ".go.id" }],
    category := "network",
    «example» := "hostname:\".go.id\"",
    tags := ["hostname", "domain", "dns"] },
  { id := "net_os_country",
    name := "Cari OS di Negara",
    description := "Cari perangkat dengan OS tertentu di negara tertentu",
    emoji := "💻",
    query_template := "os:\"{os}\" country:\"{country}\"",
    params := [
      { name := "os", description := "Nama operating system", placeholder := "Windows 10" },
      { name := "country", description := "Kode negara", placeholder := "ID" }],
    category := "network",
    «example» := "os:\"Windows 10\" country:\"ID\"",
    tags := ["os", "windows", "linux"] },
  { id := "web_server",
    name := "Web Server di Negara",
    description := "Cari web server (Apache/Nginx/IIS) di negara tertentu",
    emoji := "🌍",
    query_template := "http.server:\"{server}\" country:\"{country}\"",
    params := [
      { name := "server", description := "Nama web server", placeholder := "Apache" },
      { name := "country", description := "Kode negara", placeholder := "ID" }],
    category := "web",
    «example» := "http.server:\"Apache\" country:\"ID\"",
    tags := ["web", "apache", "nginx", "iis"] },
  { id := "web_title",
    name := "Cari Web by Title",
    description := "Cari website berdasarkan judul halaman",
    emoji := "📄",
    query_template := "http.title:\"{title}\"",
    params := [
      { name := "title", description := "Judul halaman web", placeholder := "Dashboard" }],
    category := "web",
    «example» := "http.title:\"Dashboard\"",
    tags := ["title", "web", "html"] },
  { id := "web_component",
    name := "Cari Web Component",
    description := "Cari website yang menggunakan teknologi tertentu",
    emoji := "⚙️",
    query_template := "http.component:\"{component}\" country:\"{country}\"",
    params := [
      { name := "component", description := "Nama teknologi (WordPress, jQuery, dll)", placeholder := "WordPress" },
      { name := "country", description := "Kode negara", placeholder := "ID" }],
    category := "web",
    «example» := "http.component:\"WordPress\" country:\"ID\"",
    tags := ["wordpress", "component", "technology"] },
  { id := "web_favicon",
    name := "Cari by Favicon Hash",
    description := "Cari website berdasarkan favicon hash (untuk identifikasi app)",
    emoji := "🖼️",
    query_template := "http.favicon.hash:{hash}",
    params := [
      { name := "hash", description := "Favicon hash number", placeholder := "116323821" }],
    category := "web",
    «example» := "http.favicon.hash:116323821",
    tags := ["favicon", "hash", "fingerprint"] },
  { id := "web_ssl_org",
    name := "SSL Certificate by Org",
    description := "Cari berdasarkan organisasi di SSL certificate",
    emoji := "🔒",
    query_template := "ssl.cert.subject.O:\"{org}\"",
    params := [
      { name := "org", description := "Nama organisasi di SSL cert", placeholder := "Government of Indonesia" }],
    category := "web",
    «example» := "ssl.cert.subject.O:\"Government of Indonesia\"",
    tags := ["ssl", "certificate", "tls"] },
  { id := "web_ssl_expired",
    name := "SSL Expired di Negara",
    description := "Cari website dengan SSL certificate yang sudah expired",
    emoji := "🔓",
    query_template := "ssl.cert.expired:true country:\"{country}\"",
    params := [
      { name := "country", description := "Kode negara", placeholder := "ID" }],
    category := "web",
    «example» := "ssl.cert.expired:true country:\"ID\"",
    tags := ["ssl", "expired", "security"] },
  { id := "web_http_status",
    name := "HTTP Status Code",
    description := "Cari web berdasarkan HTTP status code",
    emoji := "📊",
    query_template := "http.status:{status} country:\"{country}\"",
    params := [
      { name := "status", description := "HTTP status code", placeholder := "200" },
      { name := "country", description := "Kode negara", placeholder := "ID" }],
    category := "web",
    «example» := "http.status:200 country:\"ID\"",
    tags := ["http", "status"] },
  { id := "iot_webcam",
    name := "Webcam / IP Camera",
    description := "Cari IP camera / webcam yang terekspos",
    emoji := "📷",
    query_template := "product:\"{brand}\" country:\"{country}\"",
    params := [
      { name := "brand", description := "Merk kamera (Hikvision, Dahua, dll)", placeholder := "Hikvision" },
      { name := "country", description := "Kode negara", placeholder := "ID" }],
    category := "iot",
    «example» := "product:\"Hikvision\" country:\"ID\"",
    tags := ["camera", "webcam", "cctv", "hikvision"] },
  { id := "iot_router",
    name := "Router Admin Panel",
    description := "Cari router admin panel yang terekspos",
    emoji := "📡",
    query_template := "http.title:\"{router_type}\" country:\"{country}\"",
    params := [
      { name := "router_type", description := "Tipe router (MikroTik, TP-Link)", placeholder := "MikroTik" },
      { name := "country", description := "Kode negara", placeholder := "ID" }],
    category := "iot",
    «example» := "http.title:\"MikroTik\" country:\"ID\"",
    tags := ["router", "mikrotik", "admin"] },
  { id := "iot_printer",
    name := "Printer Terekspos",
    description := "Cari printer yang terekspos ke internet",
    emoji := "🖨️",
    query_template := "port:9100 country:\"{country}\"",
    params := [
      { name := "country", description := "Kode negara", placeholder := "ID" }],
    category := "iot",
    «example» := "port:9100 country:\"ID\"",
    tags := ["printer", "iot"] },
  { id := "iot_mqtt",
    name := "MQTT Broker",
    description := "Cari MQTT broker (IoT messaging) yang terekspos",
    emoji := "📨",
    query_template := "product:\"MQTT\" country:\"{country}\"",
    params := [
      { name := "country", description := "Kode negara", placeholder := "ID" }],
    category := "iot",
    «example» := "product:\"MQTT\" country:\"ID\"",
    tags := ["mqtt", "iot", "broker"] },
  { id := "ics_scada",
    name := "SCADA / ICS Devices",
    description := "Cari perangkat ICS/SCADA berdasarkan tag",
    emoji := "🏭",
    query_template := "tag:\"{tag}\" country:\"{country}\"",
    params := [
      { name := "tag", description := "Tag ICS (ics, scada)", placeholder := "ics" },
      { name := "country", description := "Kode negara", placeholder := "ID" }],
    category := "industrial",
    «example» := "tag:\"ics\" country:\"ID\"",
    tags := ["scada", "ics", "industrial"] },
  { id := "ics_modbus",
    name := "Modbus Devices",
    description := "Cari perangkat Modbus (ICS protocol)",
    emoji := "⚡",
    query_template := "port:502 country:\"{country}\"",
    params := [
      { name := "country", description := "Kode negara", placeholder := "ID" }],
    category := "industrial",
    «example» := "port:502 country:\"ID\"",
    tags := ["modbus", "ics"] },
  { id := "ics_plc",
    name := "PLC Devices",
    description := "Cari Programmable Logic Controller",
    emoji := "🔧",
    query_template := "product:\"{plc_brand}\" country:\"{country}\"",
    params := [
      { name := "plc_brand", description := "Merk PLC (Siemens, Allen-Bradley)", placeholder := "Siemens" },
      { name := "country", description := "Kode negara", placeholder := "ID" }],
    category := "industrial",
    «example» := "product:\"Siemens\" country:\"ID\"",
    tags := ["plc", "siemens"] },
  { id := "db_mongodb",
    name := "MongoDB Terekspos",
    description := "Cari MongoDB database yang terekspos",
    emoji := "🍃",
    query_template := "product:\"MongoDB\" country:\"{country}\"",
    params := [
      { name := "country", description := "Kode negara", placeholder := "ID" }],
    category := "database",
    «example» := "product:\"MongoDB\" country:\"ID\"",
    tags := ["mongodb", "nosql", "database"] },
  { id := "db_elastic",
    name := "Elasticsearch Terekspos",
    description := "Cari Elasticsearch cluster yang terekspos",
    emoji := "🔎",
    query_template := "product:\"Elastic\" country:\"{country}\"",
    params := [
      { name := "country", description := "Kode negara", placeholder := "ID" }],
    category := "database",
    «example» := "product:\"Elastic\" country:\"ID\"",
    tags := ["elasticsearch", "elastic", "database"] },
  { id := "db_redis",
    name := "Redis Terekspos",
    description := "Cari Redis server yang terekspos",
    emoji := "🔴",
    query_template := "product:\"Redis\" country:\"{country}\"",
    params := [
      { name := "country", description := "Kode negara", placeholder := "ID" }],
    category := "database",
    «example» := "product:\"Redis\" country:\"ID\"",
    tags := ["redis", "database", "cache"] },
  { id := "db_mysql",
    name := "MySQL Terekspos",
    description := "Cari MySQL server yang terekspos",
    emoji := "🐬",
    query_template := "product:\"MySQL\" country:\"{country}\"",
    params := [
      { name := "country", description := "Kode negara", placeholder := "ID" }],
    category := "database",
    «example» := "product:\"MySQL\" country:\"ID\"",
    tags := ["mysql", "database", "sql"] },
  { id := "db_postgres",
    name := "PostgreSQL Terekspos",
    description := "Cari PostgreSQL server yang terekspos",
    emoji := "🐘",
    query_template := "product:\"PostgreSQL\" country:\"{country}\"",
    params := [
      { name := "country", description := "Kode negara", placeholder := "ID" }],
    category := "database",
    «example» := "product:\"PostgreSQL\" country:\"ID\"",
    tags := ["postgres", "postgresql", "database"] },
  { id := "vuln_cve",
    name := "Cari CVE Tertentu",
    description := "Cari perangkat yang rentan terhadap CVE tertentu",
    emoji := "🛡️",
    query_template := "vuln:\"{cve}\"",
    params := [
      { name := "cve", description := "CVE ID", placeholder := "CVE-2021-44228" }],
    category := "vuln",
    «example» := "vuln:\"CVE-2021-44228\"",
    tags := ["cve", "vulnerability"] },
  { id := "vuln_cve_country",
    name := "CVE di Negara",
    description := "Cari perangkat rentan CVE tertentu di negara spesifik",
    emoji := "🚨",
    query_template := "vuln:\"{cve}\" country:\"{country}\"",
    params := [
      { name := "cve", description := "CVE ID", placeholder := "CVE-2021-44228" },
      { name := "country", description := "Kode negara", placeholder := "ID" }],
    category := "vuln",
    «example» := "vuln:\"CVE-2021-44228\" country:\"ID\"",
    tags := ["cve", "vulnerability", "country"] },
  { id := "vuln_has_vuln",
    name := "Perangkat dgn Vulnerability",
    description := "Cari semua perangkat yang punya vulnerability di negara tertentu",
    emoji := "💥",
    query_template := "has_vuln:true country:\"{country}\"",
    params := [
      { name := "country", description := "Kode negara", placeholder := "ID" }],
    category := "vuln",
    «example» := "has_vuln:true country:\"ID\"",
    tags := ["vulnerability", "vuln"] },
  { id := "vuln_default_pass",
    name := "Default Password",
    description := "Cari perangkat dengan password default",
    emoji := "🔑",
    query_template := "\"default password\" country:\"{country}\"",
    params := [
      { name := "country", description := "Kode negara", placeholder := "ID" }],
    category := "vuln",
    «example» := "\"default password\" country:\"ID\"",
    tags := ["password", "default", "credential"] },
  { id := "cloud_aws",
    name := "AWS Services",
    description := "Cari services yang berjalan di AWS",
    emoji := "☁️",
    query_template := "org:\"Amazon\" product:\"{product}\"",
    params := [
      { name := "product", description := "Nama product/service", placeholder := "nginx" }],
    category := "cloud",
    «example» := "org:\"Amazon\" product:\"nginx\"",
    tags := ["aws", "amazon", "cloud"] },
  { id := "cloud_gcp",
    name := "Google Cloud Services",
    description := "Cari services yang berjalan di Google Cloud",
    emoji := "🌈",
    query_template := "org:\"Google Cloud\" product:\"{product}\"",
    params := [
      { name := "product", description := "Nama product/service", placeholder := "nginx" }],
    category := "cloud",
    «example» := "org:\"Google Cloud\" product:\"nginx\"",
    tags := ["gcp", "google", "cloud"] },
  { id := "cloud_azure",
    name := "Azure Services",
    description := "Cari services yang berjalan di Microsoft Azure",
    emoji := "🔷",
    query_template := "org:\"Microsoft Azure\" product:\"{product}\"",
    params := [
      { name := "product", description := "Nama product/service", placeholder := "nginx" }],
    category := "cloud",
    «example» := "org:\"Microsoft Azure\" product:\"nginx\"",
    tags := ["azure", "microsoft", "cloud"] },
  { id := "cloud_digitalocean",
    name := "DigitalOcean Droplets",
    description := "Cari services di DigitalOcean",
    emoji := "🌊",
    query_template := "org:\"DigitalOcean\" country:\"{country}\"",
    params := [
      { name := "country", description := "Kode negara", placeholder := "ID" }],
    category := "cloud",
    «example» := "org:\"DigitalOcean\" country:\"ID\"",
    tags := ["digitalocean", "cloud"] },
  { id := "region_overview",
    name := "Overview Negara",
    description := "Lihat ringkasan semua service yang terekspos di suatu negara",
    emoji := "🗺️",
    query_template := "country:\"{country}\"",
    params := [
      { name := "country", description := "Kode negara (2 huruf)", placeholder := "ID" }],
    category := "country",
    «example» := "country:\"ID\"",
    facets := "org:10,port:10,product:10,os:5",
    tags := ["country", "overview", "stats"] },
  { id := "region_city",
    name := "Overview Kota",
    description := "Lihat ringkasan perangkat terekspos di kota tertentu",
    emoji := "🏙️",
    query_template := "city:\"{city}\" country:\"{country}\"",
    params := [
      { name := "city", description := "Nama kota", placeholder := "Jakarta" },
      { name := "country", description := "Kode negara", placeholder := "ID" }],
    category := "country",
    «example» := "city:\"Jakarta\" country:\"ID\"",
    facets := "org:10,port:10,product:10",
    tags := ["city", "overview"] }]

/-- First template with the given id (templates.py get_template_by_id).
The Python function is also called with None for the id; that case is
modelled at the call sites by an Option bind. -/
def get_template_by_id (template_id : String) : Option SearchTemplate :=
  TEMPLATES.find? fun t => t.id == template_id

/-- Lookup in the collected-values mapping (Python dict.get). -/
def lookupVal (m : List (String × String)) (k : String) : Option String :=
  match m with
  | [] => none
  | (k0, v) :: rest => if k0 == k then some v else lookupVal rest k

/-- Python dict assignment d[k] = v: overwrite the existing binding for k
or append a new one. -/
def assocSet (m : List (String × String)) (k v : String) : List (String × String) :=
  match m with
  | [] => [(k, v)]
  | (k0, v0) :: rest => if k0 == k then (k0, v) :: rest else (k0, v0) :: assocSet rest k v

/-- Build the final query string from a template and the collected values,
falling back to each parameter's placeholder (templates.py build_query). -/
def build_query (template : SearchTemplate) (values : List (String × String)) : String :=
  template.params.foldl
    (fun query param =>
      strReplace query ("\x7b" ++ param.name ++ "\x7d")
        ((lookupVal values param.name).getD param.placeholder))
    template.query_template

/-! ### keyboards.py: the pagination keyboard -/

/-- An inline keyboard button: visible text plus opaque callback token. -/
structure InlineKeyboardButton where
  text : String
  callback_data : String
deriving DecidableEq

/-- Default page size of pagination_keyboard (keyboards.py per_page=5). -/
def PER_PAGE : Nat := 5

/-- Page count computed by pagination_keyboard:
max(1, (total + per_page - 1) // per_page). -/
def total_pages_of (total per_page : Nat) : Nat :=
  max 1 ((total + per_page - 1) / per_page)

/-- The pagination keyboard (keyboards.py pagination_keyboard), returned
as its rows of buttons.  The code requires per_page at least 1 (Python
would raise ZeroDivisionError otherwise; the call sites pass 5). -/
def pagination_keyboard (query : String) (current_page total per_page : Nat) :
    List (List InlineKeyboardButton) :=
  let total_pages := total_pages_of total per_page
  let row :=
    (if current_page > 1 then
      [⟨"⬅️ Prev", "page:" ++ natStr (current_page - 1) ++ ":" ++ query⟩]
    else []) ++
    [⟨"📄 " ++ natStr current_page ++ "/" ++ natStr total_pages, "noop"⟩] ++
    (if current_page < total_pages ∧ current_page < 10 then
      [⟨"➡️ Next", "page:" ++ natStr (current_page + 1) ++ ":" ++ query⟩]
    else [])
  [row, [⟨"🔙 Menu Utama", "menu:main"⟩]]

/-! ### shodan_client.py: the account-info cache -/

/-- Mutable state of the ShodanClient singleton: the one-shot cache set by
account_info.  The cached upstream record is modelled as a key/value list;
Python truthiness of a dict is nonemptiness. -/
structure ClientState where
  info_cache : Option (List (String × String))
deriving DecidableEq

/-- Client state right after construction (info_cache = None). -/
def initClient : ClientState := ⟨none⟩

/-- Python truthiness of the optional cached dict, as tested by
the line if not self info_cache. -/
def cacheTruthy : Option (List (String × String)) → Bool
  | none => false
  | some d => !d.isEmpty

/-- Model of ShodanClient.account_info.  The upstream argument is the
record the external API would return if it were called now; the Bool in
the result reports whether an upstream fetch actually happened. -/
def account_info (st : ClientState) (upstream : List (String × String)) :
    List (String × String) × ClientState × Bool :=
  if cacheTruthy st.info_cache then
    (st.info_cache.getD [], st, false)
  else
    (upstream, ⟨some upstream⟩, true)

/-! ### handlers.py: conversation state, handlers and the router

The message texts produced through the external formatter collaborator are
abstracted to short tag strings; only the authorization denial notices are
kept verbatim because a claim is about their content.  External API calls
are recorded as ExtCall values instead of being performed. -/

/-- Conversation state constants (handlers.py, range(8)). -/
def STATE_WAITING_PARAM : Nat := 0

/-- Conversation state for a pending raw query. -/
def STATE_WAITING_RAW_QUERY : Nat := 1

/-- Conversation state for a pending host ip. -/
def STATE_WAITING_HOST_IP : Nat := 2

/-- Conversation state for a pending DNS input. -/
def STATE_WAITING_DNS : Nat := 3

/-- Conversation state for a pending exploit keyword. -/
def STATE_WAITING_EXPLOIT : Nat := 4

/-- Conversation state for a pending scan ip. -/
def STATE_WAITING_SCAN_IP : Nat := 5

/-- Conversation state for a pending honeypot ip. -/
def STATE_WAITING_HONEYPOT_IP : Nat := 6

/-- Conversation state for a pending count query. -/
def STATE_WAITING_COUNT_QUERY : Nat := 7

/-- The per-chat session dictionary context.user_data; each field models
one key, absent keys are none. -/
structure UserData where
  current_template : Option String
  template_values : Option (List (String × String))
  param_index : Option Nat
  awaiting : Option String
deriving DecidableEq

/-- Fresh session: no keys set. -/
def emptyUserData : UserData := ⟨none, none, none, none⟩

/-- A handler's outcome: ConversationHandler.END, a waiting-state
constant, or an exception escaping the handler (reaching the global
error handler). -/
inductive HRet
  | endConv
  | state (n : Nat)
  | raised
deriving DecidableEq

/-- The external API calls a handler can issue. -/
inductive ExtCall
  | search (query : String) (page : Int) (facets : String)
  | count (query : String)
  | host (ip : String)
  | dnsResolve (hostname : String)
  | dnsReverse (ip : String)
  | dnsDomain (domain : String)
  | exploits (query : String)
  | honeypot (ip : String)
  | apiInfo
  | scan (ip : String)
deriving DecidableEq

/-- Observable outcome of one handler invocation. -/
structure StepOut where
  ud : UserData
  ret : HRet
  calls : List ExtCall
  replies : List String
deriving DecidableEq

/-- Python data[n:] on a token string. -/
def strDrop (s : String) (n : Nat) : String :=
  String.mk (s.data.drop n)

/-- handlers.py _ask_next_param: with all parameters collected it builds
the query, executes the search, and pops the template-selection keys
(current_template, template_values, param_index — but not awaiting);
otherwise it prompts for parameter idx and sets awaiting to
template_param, returning STATE_WAITING_PARAM. -/
def ask_next_param (ud : UserData) : StepOut :=
  match ud.current_template.bind get_template_by_id with
  | none => ⟨ud, .endConv, [], []⟩
  | some tmpl =>
    if ud.param_index.getD 0 ≥ tmpl.params.length then
      ⟨{ ud with current_template := none, template_values := none, param_index := none },
        .endConv,
        [.search (build_query tmpl (ud.template_values.getD [])) 1 tmpl.facets],
        ["running-query", "search-results"]⟩
    else
      ⟨{ ud with awaiting := some "template_param" },
        .state STATE_WAITING_PARAM, [], ["param-prompt"]⟩

/-- handlers.py handle_param_input: branches on the awaiting tag.  In the
template_param branch, reading params[idx] out of range or writing into a
missing template_values dict raises (IndexError / KeyError), modelled as
a raised outcome with the session unchanged. -/
def handle_param_input (ud : UserData) (text : String) : StepOut :=
  if ud.awaiting.getD "" = "template_param" then
    match ud.current_template.bind get_template_by_id with
    | none => ⟨ud, .endConv, [], []⟩
    | some tmpl =>
      if h : ud.param_index.getD 0 < tmpl.params.length then
        match ud.template_values with
        | none => ⟨ud, .raised, [], []⟩
        | some values =>
          ask_next_param { ud with
            template_values := some (assocSet values
              (tmpl.params.get ⟨ud.param_index.getD 0, h⟩).name (pyStrip text)),
            param_index := some (ud.param_index.getD 0 + 1) }
      else
        ⟨ud, .raised, [], []⟩
  else if ud.awaiting.getD "" = "raw_query" then
    ⟨{ ud with awaiting := none }, .endConv,
      [.search (pyStrip text) 1 ""], ["searching", "search-results"]⟩
  else if ud.awaiting.getD "" = "count_query" then
    ⟨{ ud with awaiting := none }, .endConv, [.count (pyStrip text)], ["count-results"]⟩
  else if ud.awaiting.getD "" = "host_ip" then
    ⟨{ ud with awaiting := none }, .endConv, [.host (pyStrip text)], ["host-results"]⟩
  else if ud.awaiting.getD "" = "dns_resolve" then
    ⟨{ ud with awaiting := none }, .endConv, [.dnsResolve (pyStrip text)], ["dns-results"]⟩
  else if ud.awaiting.getD "" = "dns_reverse" then
    ⟨{ ud with awaiting := none }, .endConv, [.dnsReverse (pyStrip text)], ["rdns-results"]⟩
  else if ud.awaiting.getD "" = "dns_domain" then
    ⟨{ ud with awaiting := none }, .endConv, [.dnsDomain (pyStrip text)], ["domain-results"]⟩
  else if ud.awaiting.getD "" = "exploit_query" then
    ⟨{ ud with awaiting := none }, .endConv, [.exploits (pyStrip text)], ["exploit-results"]⟩
  else if ud.awaiting.getD "" = "honeypot_ip" then
    ⟨{ ud with awaiting := none }, .endConv, [.honeypot (pyStrip text)], ["honeypot-results"]⟩
  else if ud.awaiting.getD "" = "scan_ip" then
    ⟨{ ud with awaiting := none }, .endConv, [], ["confirm-scan"]⟩
  else
    if strStarts (pyStrip text) "/" = true then
      ⟨ud, .endConv, [], []⟩
    else
      ⟨ud, .endConv, [.search (pyStrip text) 1 ""], ["search-results"]⟩

/-- handlers.py handle_default_param: a default button press records the
parameter name and value carried by the token and advances the index
(without checking the awaiting tag). -/
def handle_default_param (ud : UserData) (data : String) : StepOut :=
  if strStarts data "default:" = true then
    if h3 : (pySplit data ':' 2).length = 3 then
      match ud.current_template.bind get_template_by_id with
      | none => ⟨ud, .endConv, [], []⟩
      | some _ =>
        match ud.template_values with
        | none => ⟨ud, .raised, [], []⟩
        | some values =>
          ask_next_param { ud with
            template_values := some (assocSet values
              ((pySplit data ':' 2).get ⟨1, by omega⟩)
              ((pySplit data ':' 2).get ⟨2, by omega⟩)),
            param_index := some (ud.param_index.getD 0 + 1) }
    else
      ⟨ud, .endConv, [], []⟩
  else
    ⟨ud, .endConv, [], []⟩

/-- handlers.py callback_handler: the big token router, with branches in
source order.  A page token with three segments whose middle segment is
not an integer raises ValueError out of the handler. -/
def callback_handler (ud : UserData) (data : String) : StepOut :=
  if data = "menu:main" then ⟨ud, .endConv, [], ["welcome"]⟩
  else if data = "menu:templates" then ⟨ud, .endConv, [], ["categories"]⟩
  else if data = "menu:host" then
    ⟨{ ud with awaiting := some "host_ip" }, .state STATE_WAITING_HOST_IP, [], ["host-prompt"]⟩
  else if data = "menu:dns" then ⟨ud, .endConv, [], ["dns-menu"]⟩
  else if data = "menu:exploits" then
    ⟨{ ud with awaiting := some "exploit_query" }, .state STATE_WAITING_EXPLOIT, [], ["exploit-prompt"]⟩
  else if data = "menu:vuln" then ⟨ud, .endConv, [], ["vuln-templates"]⟩
  else if data = "menu:raw" then
    ⟨{ ud with awaiting := some "raw_query" }, .state STATE_WAITING_RAW_QUERY, [], ["raw-prompt"]⟩
  else if data = "menu:count" then
    ⟨{ ud with awaiting := some "count_query" }, .state STATE_WAITING_COUNT_QUERY, [], ["count-prompt"]⟩
  else if data = "cmd:info" then ⟨ud, .endConv, [.apiInfo], ["api-info"]⟩
  else if data = "cmd:filters" then ⟨ud, .endConv, [], ["filters-help"]⟩
  else if data = "cmd:help" then ⟨ud, .endConv, [], ["welcome"]⟩
  else if strStarts data "cat:" = true then ⟨ud, .endConv, [], ["category-list"]⟩
  else if strStarts data "tmpl:" = true then
    match get_template_by_id (strDrop data 5) with
    | none => ⟨ud, .endConv, [], ["template-not-found"]⟩
    | some _ => ⟨ud, .endConv, [], ["template-detail"]⟩
  else if strStarts data "use:" = true then
    match get_template_by_id (strDrop data 4) with
    | none => ⟨ud, .endConv, [], ["template-not-found"]⟩
    | some _ =>
      ask_next_param { ud with current_template := some (strDrop data 4),
                               template_values := some [], param_index := some 0 }
  else if strStarts data "example:" = true then
    match get_template_by_id (strDrop data 8) with
    | none => ⟨ud, .endConv, [], ["template-not-found"]⟩
    | some tmpl =>
      ⟨ud, .endConv, [.search tmpl.«example» 1 tmpl.facets], ["running-example", "search-results"]⟩
  else if strStarts data "page:" = true then
    if (pySplit data ':' 2).length = 3 then
      match pyInt ((pySplit data ':' 2).getD 1 "") with
      | none => ⟨ud, .raised, [], []⟩
      | some page =>
        ⟨ud, .endConv, [.search ((pySplit data ':' 2).getD 2 "") page ""],
          ["search-results"]⟩
    else
      ⟨ud, .endConv, [], []⟩
  else if data = "dns:resolve" then
    ⟨{ ud with awaiting := some "dns_resolve" }, .state STATE_WAITING_DNS, [], ["dns-resolve-prompt"]⟩
  else if data = "dns:reverse" then
    ⟨{ ud with awaiting := some "dns_reverse" }, .state STATE_WAITING_DNS, [], ["dns-reverse-prompt"]⟩
  else if data = "dns:domain" then
    ⟨{ ud with awaiting := some "dns_domain" }, .state STATE_WAITING_DNS, [], ["dns-domain-prompt"]⟩
  else if strStarts data "doscan:" = true then
    ⟨ud, .endConv, [.scan (strDrop data 7)], ["scan-result"]⟩
  else if data = "noop" then ⟨ud, .endConv, [], []⟩
  else ⟨ud, .endConv, [], []⟩

/-! ### Router dispatch and global stepping (bot_app.py wiring) -/

/-- An inbound update relevant to the verified flows: a free-text message
(filters.TEXT and not filters.COMMAND) or an inline-button callback.
Command entry points exist too but no claim needs them. -/
inductive Ev
  | msg (text : String)
  | cb (data : String)
deriving DecidableEq

/-- Dispatch per the ConversationHandler states table in bot_app.py: in
STATE_WAITING_PARAM a callback matching the default: pattern goes to
handle_default_param and any other callback to callback_handler; in every
state a plain text message goes to handle_param_input; with no active
conversation a callback matches the entry-point CallbackQueryHandler. -/
def dispatch (conv : Option Nat) (ud : UserData) : Ev → StepOut
  | .msg text => handle_param_input ud text
  | .cb data =>
    if conv = some STATE_WAITING_PARAM ∧ strStarts data "default:" = true then
      handle_default_param ud data
    else
      callback_handler ud data

/-- Global state: the ConversationHandler state for the chat plus the
session dictionary. -/
structure GState where
  conv : Option Nat
  ud : UserData
deriving DecidableEq

/-- Start state: no conversation, fresh session. -/
def initGState : GState := ⟨none, emptyUserData⟩

/-- Fold one handler outcome into the global state.  Returning END ends
the conversation; returning a state constant stores it; a raised
exception leaves the previous conversation state in place. -/
def applyRet (g : GState) (o : StepOut) : GState :=
  match o.ret with
  | .endConv => ⟨none, o.ud⟩
  | .state n => ⟨some n, o.ud⟩
  | .raised => ⟨g.conv, o.ud⟩

/-- One router step.  A text message with no active conversation matches
no registered handler (the entry points hold no MessageHandler) and the
update is dropped. -/
def step (g : GState) (e : Ev) : GState :=
  match e, g.conv with
  | .msg _, none => g
  | _, _ => applyRet g (dispatch g.conv g.ud e)

/-! ### handlers.py authorized decorator -/

/-- How an entry point was invoked: plain message (or command) versus
inline-button callback. -/
inductive EntryKind
  | message
  | callback
deriving DecidableEq

/-- The denial message sent for a message-based invocation; it embeds the
requesting user id. -/
def denialText (uid : Nat) : String :=
  "❌ <b>Akses ditolak.</b>\nUser ID kamu: <code>" ++ natStr uid ++
    "</code>\nHubungi admin untuk mendapatkan akses."

/-- The denial alert shown for a callback invocation. -/
def denialAlert : String := "⛔ Akses ditolak"

/-- handlers.py authorized decorator: with a nonempty allow-list that
lacks the requesting user id, answer with a denial notice and return END
without invoking the wrapped handler; otherwise run the handler. -/
def authorized (allow : List Nat) (uid : Nat) (entry : EntryKind)
    (handler : UserData → StepOut) (ud : UserData) : StepOut :=
  if allow ≠ [] ∧ uid ∉ allow then
    match entry with
    | .callback => ⟨ud, .endConv, [], [denialAlert]⟩
    | .message => ⟨ud, .endConv, [], [denialText uid]⟩
  else
    handler ud

/-! ### Derived definitions used in the claim statements -/

/-- The pagination token built by pagination_keyboard for page n of query q. -/
def mkPageToken (n : Nat) (q : String) : String :=
  "page:" ++ natStr n ++ ":" ++ q

/-- The default-value token attached by _ask_next_param to the default
button for parameter p with placeholder value v. -/
def mkDefaultToken (p v : String) : String :=
  "default:" ++ p ++ ":" ++ v

/-- The session state installed by the use: branch before asking for the
first parameter: template selected, empty value map, index 0. -/
def useStart (ud : UserData) (tid : String) : UserData :=
  { ud with current_template := some tid, template_values := some [],
            param_index := some 0 }

/-- Spec-side formulation of default substitution: replace each
parameter's placeholder pattern in the template string by that
parameter's own example value.  Written from the spec's words, for
comparison with the code's build_query. -/
def subst_with_defaults (t : SearchTemplate) : String :=
  t.params.foldl
    (fun query param =>
      strReplace query ("\x7b" ++ param.name ++ "\x7d") param.placeholder)
    t.query_template

/-- A callback token that matches no branch of callback_handler. -/
abbrev unknownToken (data : String) : Prop :=
  data ≠ "menu:main" ∧ data ≠ "menu:templates" ∧ data ≠ "menu:host" ∧
  data ≠ "menu:dns" ∧ data ≠ "menu:exploits" ∧ data ≠ "menu:vuln" ∧
  data ≠ "menu:raw" ∧ data ≠ "menu:count" ∧ data ≠ "cmd:info" ∧
  data ≠ "cmd:filters" ∧ data ≠ "cmd:help" ∧
  strStarts data "cat:" = false ∧ strStarts data "tmpl:" = false ∧
  strStarts data "use:" = false ∧ strStarts data "example:" = false ∧
  strStarts data "page:" = false ∧
  data ≠ "dns:resolve" ∧ data ≠ "dns:reverse" ∧ data ≠ "dns:domain" ∧
  strStarts data "doscan:" = false ∧ data ≠ "noop"

/-- The property a handler outcome must satisfy: if it keeps the
conversation in the waiting-for-parameter state, the session's awaiting
tag is template_param and the active template id refers to an existing
template. -/
abbrev WaitValid (o : StepOut) : Prop :=
  o.ret = .state STATE_WAITING_PARAM →
    o.ud.awaiting = some "template_param" ∧
      ∃ tid tmpl, o.ud.current_template = some tid ∧
        get_template_by_id tid = some tmpl

/-- One value-input event of the parameter-collection flow: a free-text
message or a default-button press carrying a parameter name and value. -/
inductive PInput
  | text (v : String)
  | btn (p v : String)
deriving DecidableEq

/-- A value-input event, as the inbound update the router receives. -/
def inputEv : PInput → Ev
  | .text v => .msg v
  | .btn p v => .cb (mkDefaultToken p v)

/-- Well-formedness of a value-input event: the default buttons the bot
builds never carry a colon inside the parameter name. -/
def okInput : PInput → Prop
  | .text _ => True
  | .btn p _ => ':' ∉ p.data

instance (e : PInput) : Decidable (okInput e) := by
  cases e <;> simp only [okInput] <;> infer_instance

/-- The session mid-flow: template tid selected, values m collected so
far, awaiting parameter k. -/
def midState (tid : String) (m : List (String × String)) (k : Nat) : UserData :=
  ⟨some tid, some m, some k, some "template_param"⟩

/-- Feed a list of inputs through the router while the conversation is in
the waiting-for-parameter state, collecting the handler returns and the
external calls made along the way. -/
def runFlow (ud : UserData) : List PInput → UserData × List HRet × List ExtCall
  | [] => (ud, [], [])
  | e :: rest =>
    let o := dispatch (some STATE_WAITING_PARAM) ud (inputEv e)
    let r := runFlow o.ud rest
    (r.1, o.ret :: r.2.1, o.calls ++ r.2.2)

/-- The value map after feeding the inputs, starting at parameter k: free
text is stripped and recorded under the awaited parameter's name, a
default button records its own payload. -/
def collectVals (tmpl : SearchTemplate) :
    Nat → List (String × String) → List PInput → List (String × String)
  | _, m, [] => m
  | k, m, .text v :: rest =>
    collectVals tmpl (k + 1)
      (assocSet m (tmpl.params.getD k ⟨"", "", "", true⟩).name (pyStrip v)) rest
  | k, m, .btn p v :: rest => collectVals tmpl (k + 1) (assocSet m p v) rest

/-! ### Helper lemmas about the string primitives -/

theorem starts_self_append (p t : List Char) : starts p (p ++ t) = true := by
  induction p with
  | nil => rfl
  | cons c cs ih => simp [starts, ih]

theorem containsSeq_nil_pat (l : List Char) : containsSeq [] l = true := by
  cases l with
  | nil => rfl
  | cons c cs => simp [containsSeq, starts]

theorem containsSeq_append (pre pat post : List Char) :
    containsSeq pat (pre ++ (pat ++ post)) = true := by
  induction pre with
  | nil =>
    cases pat with
    | nil => simpa using containsSeq_nil_pat post
    | cons c cs =>
      simp only [List.nil_append, containsSeq, Bool.or_eq_true]
      exact Or.inl (by simpa using starts_self_append (c :: cs) post)
  | cons a l ih => simp [containsSeq, ih]

theorem breakOn_not_mem (sep : Char) (a : List Char) (ha : sep ∉ a) :
    breakOn sep a = (a, none) := by
  induction a with
  | nil => rfl
  | cons c cs ih =>
    rw [List.mem_cons, not_or] at ha
    have hc : (c == sep) = false := by
      simpa [beq_iff_eq] using fun h => ha.1 h.symm
    simp [breakOn, hc, ih ha.2]

theorem breakOn_append (sep : Char) (a b : List Char) (ha : sep ∉ a) :
    breakOn sep (a ++ sep :: b) = (a, some b) := by
  induction a with
  | nil => simp [breakOn]
  | cons c cs ih =>
    rw [List.mem_cons, not_or] at ha
    have hc : (c == sep) = false := by
      simpa [beq_iff_eq] using fun h => ha.1 h.symm
    simp [breakOn, hc, ih ha.2]

theorem splitAtMost_two (a b c : List Char) (ha : ':' ∉ a) (hb : ':' ∉ b) :
    splitAtMost ':' 2 (a ++ ':' :: (b ++ ':' :: c)) = [a, b, c] := by
  simp [splitAtMost, breakOn_append _ _ _ ha, breakOn_append _ _ _ hb]

theorem dropWhile_of_all_false (p : Char → Bool) (l : List Char)
    (h : ∀ c ∈ l, p c = false) : l.dropWhile p = l := by
  cases l with
  | nil => rfl
  | cons c cs => simp [List.dropWhile_cons, h c (List.mem_cons_self c cs)]

theorem stripChars_of_no_ws (l : List Char) (h : ∀ c ∈ l, isWS c = false) :
    stripChars l = l := by
  unfold stripChars
  rw [dropWhile_of_all_false _ _ h]
  rw [dropWhile_of_all_false _ _ (by simpa using h)]
  exact List.reverse_reverse l

/-! ### Helper lemmas about decimal printing and parsing -/

theorem digitChar_isDigit {n : Nat} (h : n < 10) : (Nat.digitChar n).isDigit = true := by
  have hall : ∀ m, m < 10 → (Nat.digitChar m).isDigit = true := by decide
  exact hall n h

theorem digitChar_toNat {n : Nat} (h : n < 10) : (Nat.digitChar n).toNat - 48 = n := by
  have hall : ∀ m, m < 10 → (Nat.digitChar m).toNat - 48 = m := by decide
  exact hall n h

theorem natCharsFuel_digits :
    ∀ f n, ∀ c ∈ natCharsFuel f n, c.isDigit = true := by
  intro f
  induction f with
  | zero => intro n c hc; simp [natCharsFuel] at hc
  | succ f ih =>
    intro n c hc
    by_cases h10 : n < 10
    · simp [natCharsFuel, h10] at hc
      subst hc
      exact digitChar_isDigit h10
    · simp [natCharsFuel, h10] at hc
      rcases hc with hc | hc
      · exact ih (n / 10) c hc
      · subst hc
        exact digitChar_isDigit (Nat.mod_lt _ (by omega))

theorem natChars_digits (n : Nat) : ∀ c ∈ natChars n, c.isDigit = true :=
  natCharsFuel_digits (n + 1) n

theorem colon_not_mem_natChars (n : Nat) : ':' ∉ natChars n := by
  intro h
  exact absurd (natChars_digits n ':' h) (by decide)

theorem natCharsFuel_ne_nil (f n : Nat) (hf : 0 < f) : natCharsFuel f n ≠ [] := by
  cases f with
  | zero => omega
  | succ f =>
    by_cases h10 : n < 10 <;> simp [natCharsFuel, h10]

theorem digitsAux_append (acc : Nat) (xs ys : List Char) :
    digitsAux acc (xs ++ ys) = (digitsAux acc xs).bind fun a => digitsAux a ys := by
  induction xs generalizing acc with
  | nil => rfl
  | cons c cs ih =>
    by_cases hc : c.isDigit <;> simp [digitsAux, hc, ih]

theorem digitsAux_natCharsFuel :
    ∀ f n acc, n < 10 ^ f →
      digitsAux acc (natCharsFuel f n) =
        some (acc * 10 ^ (natCharsFuel f n).length + n) := by
  intro f
  induction f with
  | zero =>
    intro n acc h
    have : n = 0 := by simpa using h
    subst this
    simp [natCharsFuel, digitsAux]
  | succ f ih =>
    intro n acc h
    by_cases h10 : n < 10
    · simp [natCharsFuel, h10, digitsAux, digitChar_isDigit h10, digitChar_toNat h10]
      omega
    · have hdiv : n / 10 < 10 ^ f := by
        rw [Nat.div_lt_iff_lt_mul (by omega)]
        rw [pow_succ] at h
        exact h
      have hm : n % 10 < 10 := Nat.mod_lt _ (by omega)
      rw [show natCharsFuel (f + 1) n =
            natCharsFuel f (n / 10) ++ [Nat.digitChar (n % 10)] by
          simp [natCharsFuel, h10]]
      rw [digitsAux_append, ih (n / 10) acc hdiv]
      simp [digitsAux, digitChar_isDigit hm, digitChar_toNat hm, List.length_append]
      rw [pow_succ, ← mul_assoc]
      generalize acc * 10 ^ (natCharsFuel f (n / 10)).length = A
      omega

theorem digitsVal_natChars (n : Nat) : digitsVal (natChars n) = some n := by
  unfold digitsVal
  have hne := natCharsFuel_ne_nil (n + 1) n (by omega)
  rw [if_neg (by simpa [natChars] using hne)]
  have hlt : n < 10 ^ (n + 1) :=
    lt_of_lt_of_le (Nat.lt_pow_self (by omega) n)
      (Nat.pow_le_pow_right (by omega) (by omega))
  simpa using digitsAux_natCharsFuel (n + 1) n 0 hlt

theorem digit_not_ws (c : Char) (h : c.isDigit = true) : isWS c = false := by
  by_contra hne
  have hws : isWS c = true := by revert hne; cases isWS c <;> simp
  unfold isWS at hws
  simp only [Bool.or_eq_true, beq_iff_eq] at hws
  rcases hws with ((((rfl | rfl) | rfl) | rfl) | rfl) | rfl <;>
    exact absurd h (by decide)

theorem pyInt_natStr (n : Nat) : pyInt (natStr n) = some (n : Int) := by
  unfold pyInt natStr
  rw [show (String.mk (natChars n)).data = natChars n from rfl]
  rw [stripChars_of_no_ws _ (fun c hc => digit_not_ws c (natChars_digits n c hc))]
  rcases hl : natChars n with _ | ⟨c, cs⟩
  · exact absurd hl (natCharsFuel_ne_nil (n + 1) n (by omega))
  · have hc : c.isDigit = true :=
      natChars_digits n c (by rw [hl]; exact List.mem_cons_self c cs)
    have h1 : c ≠ '-' := by rintro rfl; exact absurd hc (by decide)
    have h2 : c ≠ '+' := by rintro rfl; exact absurd hc (by decide)
    rw [pyIntChars, if_neg h1, if_neg h2, ← hl, digitsVal_natChars]
    rfl

/-! ### Token-shape lemmas -/



theorem data_mkPageToken (n : Nat) (q : String) :
    (mkPageToken n q).data =
      "page".data ++ ':' :: ((natStr n).data ++ ':' :: q.data) := by
  simp [mkPageToken, String.data_append]

theorem pySplit_mkPageToken (n : Nat) (q : String) :
    pySplit (mkPageToken n q) ':' 2 = ["page", natStr n, q] := by
  unfold pySplit
  rw [data_mkPageToken,
    splitAtMost_two _ _ _ (by decide)
      (show ':' ∉ (natStr n).data from colon_not_mem_natChars n)]
  rfl

theorem data_mkDefaultToken (p v : String) :
    (mkDefaultToken p v).data =
      "default".data ++ ':' :: (p.data ++ ':' :: v.data) := by
  simp [mkDefaultToken, String.data_append]

theorem pySplit_mkDefaultToken (p v : String) (hp : ':' ∉ p.data) :
    pySplit (mkDefaultToken p v) ':' 2 = ["default", p, v] := by
  unfold pySplit
  rw [data_mkDefaultToken, splitAtMost_two _ _ _ (by decide) hp]
  rfl

theorem strStarts_mkDefaultToken (p v : String) :
    strStarts (mkDefaultToken p v) "default:" = true := rfl

theorem strContains_denialText (uid : Nat) :
    strContains (denialText uid) (natStr uid) = true := by
  unfold strContains denialText
  rw [String.data_append, String.data_append, List.append_assoc]
  exact containsSeq_append _ _ _


/-- The use: branch of callback_handler, exposed definitionally: every
branch before it refutes on the token's leading characters. -/
theorem callback_use_eq (ud : UserData) (tid : String) :
    callback_handler ud ("use:" ++ tid) =
      (match get_template_by_id tid with
       | none => ⟨ud, .endConv, [], ["template-not-found"]⟩
       | some _ => ask_next_param (useStart ud tid)) := rfl

/-! ### Claim C3: build_query with an empty value map -/


/-- Claim C3: for every template in the catalog, building a query from an
empty value map substitutes each parameter's own example/default value
into its placeholder, and the result coincides with the template's stored
example query. -/
theorem build_query_empty_is_defaults :
    ∀ t ∈ TEMPLATES,
      build_query t [] = subst_with_defaults t ∧ build_query t [] = t.«example» := by
  decide

/-- Witness for build_query_empty_is_defaults at the first catalog entry. -/
theorem build_query_empty_is_defaults_witness :
    TEMPLATES.get ⟨0, by decide⟩ ∈ TEMPLATES ∧
      (build_query (TEMPLATES.get ⟨0, by decide⟩) [] =
          subst_with_defaults (TEMPLATES.get ⟨0, by decide⟩) ∧
        build_query (TEMPLATES.get ⟨0, by decide⟩) [] =
          (TEMPLATES.get ⟨0, by decide⟩).«example») :=
  ⟨by decide, build_query_empty_is_defaults _ (by decide)⟩

/-! ### Claim C9: the account-info cache -/

/-- Claim C9 counterexample: when the first upstream response is the
empty (falsy) record, the second account_info call performs an upstream
fetch again and can return a value different from the first call's
result — the one-shot-cache claim fails for a falsy first response. -/
theorem account_info_refetch_cex :
    (account_info (account_info initClient []).2.1 [("plan", "dev")]).2.2 = true ∧
      (account_info (account_info initClient []).2.1 [("plan", "dev")]).1 ≠
        (account_info initClient []).1 := by decide

/-- Claim C9 (amended): provided the first upstream response is non-empty
(truthy), a second call performs no upstream fetch and returns exactly
the first call's value, regardless of what upstream would return. -/
theorem account_info_cached_after_truthy (d1 d2 : List (String × String))
    (h : d1 ≠ []) :
    (account_info initClient d1).1 = d1 ∧
      (account_info initClient d1).2.2 = true ∧
      (account_info (account_info initClient d1).2.1 d2).2.2 = false ∧
      (account_info (account_info initClient d1).2.1 d2).1 = d1 := by
  cases d1 with
  | nil => exact absurd rfl h
  | cons a l => simp [account_info, initClient, cacheTruthy]

/-- Witness for account_info_cached_after_truthy. -/
theorem account_info_cached_after_truthy_witness :
    (account_info initClient [("plan", "dev")]).1 = [("plan", "dev")] ∧
      (account_info initClient [("plan", "dev")]).2.2 = true ∧
      (account_info (account_info initClient [("plan", "dev")]).2.1 []).2.2 = false ∧
      (account_info (account_info initClient [("plan", "dev")]).2.1 []).1 =
        [("plan", "dev")] :=
  account_info_cached_after_truthy [("plan", "dev")] [] (by decide)

/-! ### Claim C6: the authorization gate -/

/-- Claim C6 counterexample: for a callback-based entry the denial notice
is the short alert, which does not contain the requesting identity's id
(here id 2), unlike the message-based denial. -/
theorem authorized_callback_denial_cex :
    (authorized [1] 2 .callback (fun u => ⟨u, .endConv, [], []⟩) emptyUserData).replies
        = [denialAlert] ∧
      strContains denialAlert (natStr 2) = false := by decide

/-- Claim C6 (amended): a non-empty allow-list lacking the requesting id
blocks every entry point before any session mutation or external call,
answering with a denial notice that embeds the requester's id for
message-based invocations (callback invocations get a short alert without
the id); an empty allow-list passes every identity through unchanged. -/
theorem authorized_gate_spec (allow : List Nat) (uid : Nat) (entry : EntryKind)
    (handler : UserData → StepOut) (ud : UserData) :
    (allow ≠ [] → uid ∉ allow →
      authorized allow uid entry handler ud =
        ⟨ud, .endConv, [],
          [match entry with
           | .callback => denialAlert
           | .message => denialText uid]⟩) ∧
    strContains (denialText uid) (natStr uid) = true ∧
    (allow = [] → authorized allow uid entry handler ud = handler ud) := by
  refine ⟨fun h1 h2 => ?_, strContains_denialText uid, fun h1 => ?_⟩
  · unfold authorized
    rw [if_pos ⟨h1, h2⟩]
    cases entry <;> rfl
  · unfold authorized
    rw [if_neg (by simp [h1])]

/-- Witness for authorized_gate_spec: a blocked message entry and an
all-pass empty allow-list. -/
theorem authorized_gate_spec_witness :
    authorized [5] 9 .message (fun u => ⟨u, .endConv, [], []⟩) emptyUserData =
        ⟨emptyUserData, .endConv, [], [denialText 9]⟩ ∧
      authorized [] 9 .message (fun u => ⟨u, .endConv, [], []⟩) emptyUserData =
        ⟨emptyUserData, .endConv, [], []⟩ := by
  constructor
  · exact (authorized_gate_spec [5] 9 .message _ emptyUserData).1
      (by decide) (by decide)
  · exact (authorized_gate_spec [] 9 .message _ emptyUserData).2.2 rfl

/-! ### Claim C10: default free-text routing -/

/-- Claim C10 counterexample: the message consisting of a space followed
by /x does not begin with a slash, yet the handler executes no search
(the code tests the stripped text, not the message). -/
theorem free_text_slash_check_cex :
    strStarts " /x" "/" = false ∧
      handle_param_input emptyUserData " /x" = ⟨emptyUserData, .endConv, [], []⟩ := by
  decide

/-- With no awaiting tag set, handle_param_input reduces to the final
raw-search branch. -/
theorem handle_param_input_default (ud : UserData) (text : String)
    (h : ud.awaiting = none) :
    handle_param_input ud text =
      if strStarts (pyStrip text) "/" = true then ⟨ud, .endConv, [], []⟩
      else ⟨ud, .endConv, [.search (pyStrip text) 1 ""], ["search-results"]⟩ := by
  unfold handle_param_input
  rw [h]
  rfl

/-- Claim C10 (amended): in the default free-text state, a message whose
stripped text begins with a slash is ignored (no call, no state change),
and any message whose stripped text does not begin with a slash triggers
a search with the stripped text at page 1, leaving the session unchanged. -/
theorem default_free_text_routing (ud : UserData) (text : String)
    (h : ud.awaiting = none) :
    (strStarts (pyStrip text) "/" = true →
      handle_param_input ud text = ⟨ud, .endConv, [], []⟩) ∧
    (strStarts (pyStrip text) "/" = false →
      handle_param_input ud text =
        ⟨ud, .endConv, [.search (pyStrip text) 1 ""], ["search-results"]⟩) := by
  constructor <;> intro hs <;> rw [handle_param_input_default ud text h, hs] <;> simp

/-- Witness for default_free_text_routing. -/
theorem default_free_text_routing_witness :
    handle_param_input emptyUserData "/start" = ⟨emptyUserData, .endConv, [], []⟩ ∧
      handle_param_input emptyUserData "port:22" =
        ⟨emptyUserData, .endConv, [.search "port:22" 1 ""], ["search-results"]⟩ := by
  constructor
  · exact (default_free_text_routing emptyUserData "/start" rfl).1 (by decide)
  · exact (default_free_text_routing emptyUserData "port:22" rfl).2 (by decide)

/-! ### Claim C7: unknown and malformed callback tokens -/


/-- Claim C7 counterexample: the malformed page token page:x:q raises an
uncaught ValueError out of the handler (to the global error handler,
which then surfaces a generic error message) — it is not swallowed
silently. -/
theorem callback_malformed_page_raises_cex :
    (callback_handler emptyUserData "page:x:q").ret = .raised ∧
      (callback_handler emptyUserData "page:x:q").replies = [] := by decide

/-- Claim C7 (amended): a token matching no branch — in particular every
unknown-namespace token — is swallowed silently: no reply, no call, no
exception, the session untouched, and END is returned. -/
theorem callback_unknown_token_silent (ud : UserData) (data : String)
    (h : unknownToken data) :
    callback_handler ud data = ⟨ud, .endConv, [], []⟩ := by
  obtain ⟨h1, h2, h3, h4, h5, h6, h7, h8, h9, h10, h11, h12, h13, h14, h15, h16,
    h17, h18, h19, h20, h21⟩ := h
  simp [callback_handler, h1, h2, h3, h4, h5, h6, h7, h8, h9, h10, h11, h12,
    h13, h14, h15, h16, h17, h18, h19, h20, h21]

/-- Witness for callback_unknown_token_silent. -/
theorem callback_unknown_token_silent_witness :
    unknownToken "mystery" ∧
      callback_handler emptyUserData "mystery" = ⟨emptyUserData, .endConv, [], []⟩ :=
  ⟨by decide, callback_unknown_token_silent emptyUserData "mystery" (by decide)⟩

/-! ### Claim C2: the pagination controller -/

theorem string_ne_of_first (c d : Char) (s t : String)
    (hs : s.data.head? = some c) (ht : t.data.head? = some d) (h : c ≠ d) :
    s ≠ t := by
  intro e
  rw [e, ht] at hs
  exact h (Option.some.inj hs).symm

/-- The code's rounded-up page count agrees with the mathematical ceiling
of total / per_page. -/
theorem ceil_div_eq (a b : Nat) (hb : 1 ≤ b) :
    ((a + b - 1) / b : Nat) = ⌈(a : ℚ) / (b : ℚ)⌉₊ := by
  have hb0 : (0 : ℚ) < (b : ℚ) := by exact_mod_cast hb
  apply le_antisymm
  · have h1 : (a : ℚ) / b ≤ (⌈(a : ℚ) / b⌉₊ : ℚ) := Nat.le_ceil _
    have h2 : (a : ℚ) ≤ (⌈(a : ℚ) / b⌉₊ : ℚ) * b := by
      rwa [div_le_iff₀ hb0] at h1
    have h3 : a ≤ ⌈(a : ℚ) / b⌉₊ * b := by exact_mod_cast h2
    rw [Nat.div_le_iff_le_mul_add_pred (by omega)]
    rw [mul_comm] at h3
    generalize b * ⌈(a : ℚ) / (b : ℚ)⌉₊ = D at h3 ⊢
    omega
  · apply Nat.ceil_le.2
    rw [div_le_iff₀ hb0]
    have h4 : a ≤ (a + b - 1) / b * b := by
      have h5 := Nat.div_add_mod (a + b - 1) b
      have h6 : (a + b - 1) % b < b := Nat.mod_lt _ (by omega)
      rw [mul_comm]
      generalize b * ((a + b - 1) / b) = D at h5 ⊢
      omega
    exact_mod_cast h4

/-- Claim C2: for total at least 0, page size at least 1 and current page
at least 1, the keyboard computes max 1 (ceiling of total / page size)
pages, renders a Prev control exactly when the current page exceeds 1,
and renders a Next control exactly when the current page is below both
the page count and the hard cap 10. -/
theorem pagination_controls (query : String) (total per_page current_page : Nat)
    (hpp : 1 ≤ per_page) (hcp : 1 ≤ current_page) :
    total_pages_of total per_page = max 1 ⌈(total : ℚ) / (per_page : ℚ)⌉₊ ∧
    ((∃ row ∈ pagination_keyboard query current_page total per_page,
        ∃ b ∈ row, b.text = "⬅️ Prev") ↔ 1 < current_page) ∧
    ((∃ row ∈ pagination_keyboard query current_page total per_page,
        ∃ b ∈ row, b.text = "➡️ Next") ↔
      current_page < total_pages_of total per_page ∧ current_page < 10) := by
  have hmid1 :
      ("📄 " ++ natStr current_page ++ "/" ++ natStr (total_pages_of total per_page)) ≠
        "⬅️ Prev" :=
    string_ne_of_first '📄' '⬅' _ _ rfl rfl (by decide)
  have hmid2 :
      ("📄 " ++ natStr current_page ++ "/" ++ natStr (total_pages_of total per_page)) ≠
        "➡️ Next" :=
    string_ne_of_first '📄' '➡' _ _ rfl rfl (by decide)
  have hpn : ("⬅️ Prev" : String) ≠ "➡️ Next" := by decide
  have hnp : ("➡️ Next" : String) ≠ "⬅️ Prev" := by decide
  have hm1 : ("🔙 Menu Utama" : String) ≠ "⬅️ Prev" := by decide
  have hm2 : ("🔙 Menu Utama" : String) ≠ "➡️ Next" := by decide
  refine ⟨?_, ?_, ?_⟩
  · unfold total_pages_of
    rw [ceil_div_eq total per_page hpp]
  · by_cases h1 : 1 < current_page <;>
      by_cases h2 : current_page < total_pages_of total per_page ∧ current_page < 10 <;>
      simp [pagination_keyboard, h1, h2, hmid1, hnp, hm1]
  · by_cases h1 : 1 < current_page <;>
      by_cases h2 : current_page < total_pages_of total per_page ∧ current_page < 10 <;>
      simp [pagination_keyboard, h1, h2, hmid2, hpn, hm2]

/-- Witness for pagination_controls at total 12, page size 5, page 2. -/
theorem pagination_controls_witness :
    total_pages_of 12 5 = max 1 ⌈(12 : ℚ) / (5 : ℚ)⌉₊ ∧
    ((∃ row ∈ pagination_keyboard "port:22" 2 12 5,
        ∃ b ∈ row, b.text = "⬅️ Prev") ↔ 1 < 2) ∧
    ((∃ row ∈ pagination_keyboard "port:22" 2 12 5,
        ∃ b ∈ row, b.text = "➡️ Next") ↔ 2 < total_pages_of 12 5 ∧ 2 < 10) :=
  pagination_controls "port:22" 12 5 2 (by decide) (by decide)

/-! ### Claim C4: the awaiting/template invariant -/

/-- ask_next_param written out over the session fields (pure unfolding). -/
theorem ask_next_param_eq (ud : UserData) :
    ask_next_param ud =
      match ud.current_template.bind get_template_by_id with
      | none => ⟨ud, .endConv, [], []⟩
      | some tmpl =>
        if ud.param_index.getD 0 ≥ tmpl.params.length then
          ⟨⟨none, none, none, ud.awaiting⟩, .endConv,
            [.search (build_query tmpl (ud.template_values.getD [])) 1 tmpl.facets],
            ["running-query", "search-results"]⟩
        else
          ⟨⟨ud.current_template, ud.template_values, ud.param_index,
              some "template_param"⟩,
            .state STATE_WAITING_PARAM, [], ["param-prompt"]⟩ := rfl


theorem ask_next_param_wait_valid (ud : UserData) : WaitValid (ask_next_param ud) := by
  intro h
  rw [ask_next_param_eq] at h ⊢
  rcases hb : ud.current_template.bind get_template_by_id with _ | tmpl <;>
    simp only [hb] at h ⊢
  · exact absurd h (by simp)
  · by_cases hidx : ud.param_index.getD 0 ≥ tmpl.params.length
    · rw [if_pos hidx] at h
      exact absurd h (by simp)
    · rw [if_neg hidx]
      rcases Option.bind_eq_some.1 hb with ⟨tid, h1, h2⟩
      exact ⟨rfl, tid, tmpl, h1, h2⟩

theorem handle_param_input_wait_valid (ud : UserData) (text : String) :
    WaitValid (handle_param_input ud text) := by
  unfold handle_param_input
  by_cases c1 : ud.awaiting.getD "" = "template_param"
  · rw [if_pos c1]
    rcases hb : ud.current_template.bind get_template_by_id with _ | tmpl <;>
      simp only [hb]
    · exact fun h => absurd h (by simp)
    · by_cases c2 : ud.param_index.getD 0 < tmpl.params.length
      · rw [dif_pos c2]
        rcases hv : ud.template_values with _ | values <;> simp only
        · exact fun h => absurd h (by simp)
        · exact ask_next_param_wait_valid _
      · rw [dif_neg c2]
        exact fun h => absurd h (by simp)
  · rw [if_neg c1]
    by_cases c2 : ud.awaiting.getD "" = "raw_query"
    · rw [if_pos c2]; exact fun h => absurd h (by simp)
    · rw [if_neg c2]
      by_cases c3 : ud.awaiting.getD "" = "count_query"
      · rw [if_pos c3]; exact fun h => absurd h (by simp)
      · rw [if_neg c3]
        by_cases c4 : ud.awaiting.getD "" = "host_ip"
        · rw [if_pos c4]; exact fun h => absurd h (by simp)
        · rw [if_neg c4]
          by_cases c5 : ud.awaiting.getD "" = "dns_resolve"
          · rw [if_pos c5]; exact fun h => absurd h (by simp)
          · rw [if_neg c5]
            by_cases c6 : ud.awaiting.getD "" = "dns_reverse"
            · rw [if_pos c6]; exact fun h => absurd h (by simp)
            · rw [if_neg c6]
              by_cases c7 : ud.awaiting.getD "" = "dns_domain"
              · rw [if_pos c7]; exact fun h => absurd h (by simp)
              · rw [if_neg c7]
                by_cases c8 : ud.awaiting.getD "" = "exploit_query"
                · rw [if_pos c8]; exact fun h => absurd h (by simp)
                · rw [if_neg c8]
                  by_cases c9 : ud.awaiting.getD "" = "honeypot_ip"
                  · rw [if_pos c9]; exact fun h => absurd h (by simp)
                  · rw [if_neg c9]
                    by_cases c10 : ud.awaiting.getD "" = "scan_ip"
                    · rw [if_pos c10]; exact fun h => absurd h (by simp)
                    · rw [if_neg c10]
                      by_cases c11 : strStarts (pyStrip text) "/" = true
                      · rw [if_pos c11]; exact fun h => absurd h (by simp)
                      · rw [if_neg c11]; exact fun h => absurd h (by simp)

theorem handle_default_param_wait_valid (ud : UserData) (data : String) :
    WaitValid (handle_default_param ud data) := by
  unfold handle_default_param
  by_cases c1 : strStarts data "default:" = true
  · rw [if_pos c1]
    by_cases c2 : (pySplit data ':' 2).length = 3
    · rw [dif_pos c2]
      rcases hb : ud.current_template.bind get_template_by_id with _ | tmpl <;>
        simp only [hb]
      · exact fun h => absurd h (by simp)
      · rcases hv : ud.template_values with _ | values <;> simp only
        · exact fun h => absurd h (by simp)
        · exact ask_next_param_wait_valid _
    · rw [dif_neg c2]
      exact fun h => absurd h (by simp)
  · rw [if_neg c1]
    exact fun h => absurd h (by simp)

theorem callback_handler_wait_valid (ud : UserData) (data : String) :
    WaitValid (callback_handler ud data) := by
  unfold callback_handler
  by_cases c1 : data = "menu:main"
  · rw [if_pos c1]; exact fun h => absurd h (by simp)
  rw [if_neg c1]
  by_cases c2 : data = "menu:templates"
  · rw [if_pos c2]; exact fun h => absurd h (by simp)
  rw [if_neg c2]
  by_cases c3 : data = "menu:host"
  · rw [if_pos c3]
    exact fun h => absurd h (by simp [STATE_WAITING_HOST_IP, STATE_WAITING_PARAM])
  rw [if_neg c3]
  by_cases c4 : data = "menu:dns"
  · rw [if_pos c4]; exact fun h => absurd h (by simp)
  rw [if_neg c4]
  by_cases c5 : data = "menu:exploits"
  · rw [if_pos c5]
    exact fun h => absurd h (by simp [STATE_WAITING_EXPLOIT, STATE_WAITING_PARAM])
  rw [if_neg c5]
  by_cases c6 : data = "menu:vuln"
  · rw [if_pos c6]; exact fun h => absurd h (by simp)
  rw [if_neg c6]
  by_cases c7 : data = "menu:raw"
  · rw [if_pos c7]
    exact fun h => absurd h (by simp [STATE_WAITING_RAW_QUERY, STATE_WAITING_PARAM])
  rw [if_neg c7]
  by_cases c8 : data = "menu:count"
  · rw [if_pos c8]
    exact fun h => absurd h (by simp [STATE_WAITING_COUNT_QUERY, STATE_WAITING_PARAM])
  rw [if_neg c8]
  by_cases c9 : data = "cmd:info"
  · rw [if_pos c9]; exact fun h => absurd h (by simp)
  rw [if_neg c9]
  by_cases c10 : data = "cmd:filters"
  · rw [if_pos c10]; exact fun h => absurd h (by simp)
  rw [if_neg c10]
  by_cases c11 : data = "cmd:help"
  · rw [if_pos c11]; exact fun h => absurd h (by simp)
  rw [if_neg c11]
  by_cases c12 : strStarts data "cat:" = true
  · rw [if_pos c12]; exact fun h => absurd h (by simp)
  rw [if_neg c12]
  by_cases c13 : strStarts data "tmpl:" = true
  · rw [if_pos c13]
    rcases get_template_by_id (strDrop data 5) with _ | t <;> simp only <;>
      exact fun h => absurd h (by simp)
  rw [if_neg c13]
  by_cases c14 : strStarts data "use:" = true
  · rw [if_pos c14]
    rcases get_template_by_id (strDrop data 4) with _ | t <;> simp only
    · exact fun h => absurd h (by simp)
    · exact ask_next_param_wait_valid _
  rw [if_neg c14]
  by_cases c15 : strStarts data "example:" = true
  · rw [if_pos c15]
    rcases get_template_by_id (strDrop data 8) with _ | t <;> simp only <;>
      exact fun h => absurd h (by simp)
  rw [if_neg c15]
  by_cases c16 : strStarts data "page:" = true
  · rw [if_pos c16]
    by_cases c16a : (pySplit data ':' 2).length = 3
    · rw [if_pos c16a]
      rcases pyInt ((pySplit data ':' 2).getD 1 "") with _ | p <;> simp only <;>
        exact fun h => absurd h (by simp)
    · rw [if_neg c16a]; exact fun h => absurd h (by simp)
  rw [if_neg c16]
  by_cases c17 : data = "dns:resolve"
  · rw [if_pos c17]
    exact fun h => absurd h (by simp [STATE_WAITING_DNS, STATE_WAITING_PARAM])
  rw [if_neg c17]
  by_cases c18 : data = "dns:reverse"
  · rw [if_pos c18]
    exact fun h => absurd h (by simp [STATE_WAITING_DNS, STATE_WAITING_PARAM])
  rw [if_neg c18]
  by_cases c19 : data = "dns:domain"
  · rw [if_pos c19]
    exact fun h => absurd h (by simp [STATE_WAITING_DNS, STATE_WAITING_PARAM])
  rw [if_neg c19]
  by_cases c20 : strStarts data "doscan:" = true
  · rw [if_pos c20]; exact fun h => absurd h (by simp)
  rw [if_neg c20]
  by_cases c21 : data = "noop"
  · rw [if_pos c21]; exact fun h => absurd h (by simp)
  rw [if_neg c21]
  exact fun h => absurd h (by simp)

/-- Claim C4 (amended): whenever a routed handler leaves the conversation
awaiting a template parameter, the resulting session has awaiting tag
template_param and a non-null active template id naming an existing
template.  (The unamended invariant fails: completing the flow pops the
template id but leaves the awaiting tag set, see the counterexample.) -/
theorem router_waiting_implies_template (conv : Option Nat) (ud : UserData) (e : Ev)
    (h : (dispatch conv ud e).ret = .state STATE_WAITING_PARAM) :
    (dispatch conv ud e).ud.awaiting = some "template_param" ∧
      ∃ tid tmpl, (dispatch conv ud e).ud.current_template = some tid ∧
        get_template_by_id tid = some tmpl := by
  have hv : WaitValid (dispatch conv ud e) := by
    cases e with
    | msg t => exact handle_param_input_wait_valid ud t
    | cb d =>
      simp only [dispatch]
      split
      · exact handle_default_param_wait_valid ud d
      · exact callback_handler_wait_valid ud d
  exact hv h

/-- Witness for router_waiting_implies_template: starting a one-parameter
template flow leaves the router waiting with the template recorded. -/
theorem router_waiting_implies_template_witness :
    (dispatch none emptyUserData (.cb "use:region_overview")).ret =
        .state STATE_WAITING_PARAM ∧
      ((dispatch none emptyUserData (.cb "use:region_overview")).ud.awaiting =
          some "template_param" ∧
        ∃ tid tmpl,
          (dispatch none emptyUserData (.cb "use:region_overview")).ud.current_template =
              some tid ∧
            get_template_by_id tid = some tmpl) :=
  ⟨by decide, router_waiting_implies_template none emptyUserData
    (.cb "use:region_overview") (by decide)⟩

/-- Claim C4 counterexample: the session reached by pressing
use:region_overview and then sending the single value ID has awaiting =
template_param while the active template id is cleared — flow completion
pops the template keys but not the awaiting tag. -/
theorem session_template_invariant_cex :
    (step (step initGState (.cb "use:region_overview")) (.msg "ID")).ud.awaiting =
        some "template_param" ∧
      (step (step initGState (.cb "use:region_overview")) (.msg "ID")).ud.current_template =
        none := by decide

/-! ### Claim C5: default button versus free text -/

/-- Claim C5 counterexample: mid-flow at parameter index 1 of
net_provider, pressing the stale default button for parameter org (a
token the bot itself offered at index 0 of the same flow) records the
value under org, while the free-text path records it under the currently
awaited parameter country — the outcomes differ. -/
theorem default_button_vs_free_text_cex :
    handle_default_param
        ⟨some "net_provider", some [("org", "Telkom Indonesia")], some 1,
          some "template_param"⟩
        "default:org:Telkom Indonesia" ≠
      handle_param_input
        ⟨some "net_provider", some [("org", "Telkom Indonesia")], some 1,
          some "template_param"⟩
        "Telkom Indonesia" := by decide

/-- Claim C5 (amended): pressing the default button that belongs to the
currently awaited parameter — its token names that parameter and carries
a value unchanged by stripping, as every bot-built default button does —
is equivalent to sending the value as free text: both paths produce the
identical handler outcome.  (For a stale default button naming another
parameter the two paths differ, see the counterexample.) -/
theorem default_button_matches_free_text (ud : UserData) (tid : String)
    (tmpl : SearchTemplate) (values : List (String × String)) (idx : Nat) (v : String)
    (hct : ud.current_template = some tid)
    (ht : get_template_by_id tid = some tmpl)
    (hv : ud.template_values = some values)
    (hidx : ud.param_index = some idx)
    (haw : ud.awaiting = some "template_param")
    (hlt : idx < tmpl.params.length)
    (hname : ':' ∉ (tmpl.params.get ⟨idx, hlt⟩).name.data)
    (hstrip : pyStrip v = v) :
    handle_default_param ud (mkDefaultToken (tmpl.params.get ⟨idx, hlt⟩).name v) =
      handle_param_input ud v := by
  have hbind : ud.current_template.bind get_template_by_id = some tmpl := by
    rw [hct]
    exact ht
  have hL : handle_default_param ud (mkDefaultToken (tmpl.params.get ⟨idx, hlt⟩).name v) =
      ask_next_param { ud with
        template_values :=
          some (assocSet values (tmpl.params.get ⟨idx, hlt⟩).name v),
        param_index := some (idx + 1) } := by
    unfold handle_default_param
    rw [if_pos (strStarts_mkDefaultToken _ _)]
    have hsplit := pySplit_mkDefaultToken (tmpl.params.get ⟨idx, hlt⟩).name v hname
    rw [dif_pos (show (pySplit (mkDefaultToken (tmpl.params.get ⟨idx, hlt⟩).name v)
      ':' 2).length = 3 by rw [hsplit]; rfl)]
    simp only [hbind, hv, hidx, Option.getD_some]
    have e1 : ∀ h1 : 1 < (pySplit (mkDefaultToken (tmpl.params.get ⟨idx, hlt⟩).name v)
        ':' 2).length,
        (pySplit (mkDefaultToken (tmpl.params.get ⟨idx, hlt⟩).name v) ':' 2).get ⟨1, h1⟩ =
          (tmpl.params.get ⟨idx, hlt⟩).name := by
      intro h1
      rw [List.get_of_eq hsplit]
      rfl
    have e2 : ∀ h2 : 2 < (pySplit (mkDefaultToken (tmpl.params.get ⟨idx, hlt⟩).name v)
        ':' 2).length,
        (pySplit (mkDefaultToken (tmpl.params.get ⟨idx, hlt⟩).name v) ':' 2).get ⟨2, h2⟩ =
          v := by
      intro h2
      rw [List.get_of_eq hsplit]
      rfl
    rw [e1, e2]
  have hR : handle_param_input ud v =
      ask_next_param { ud with
        template_values :=
          some (assocSet values (tmpl.params.get ⟨idx, hlt⟩).name v),
        param_index := some (idx + 1) } := by
    unfold handle_param_input
    rw [if_pos (by rw [haw]; rfl)]
    simp only [hbind, hidx, Option.getD_some]
    rw [dif_pos hlt]
    simp only [hv, hstrip]
  rw [hL, hR]

/-- Witness for default_button_matches_free_text: on the first parameter
of net_provider, the offered default button and typing the value agree. -/
theorem default_button_matches_free_text_witness :
    handle_default_param ⟨some "net_provider", some [], some 0, some "template_param"⟩
        (mkDefaultToken
          ((TEMPLATES.get ⟨0, by decide⟩).params.get ⟨0, by decide⟩).name "Biznet") =
      handle_param_input ⟨some "net_provider", some [], some 0, some "template_param"⟩
        "Biznet" :=
  default_button_matches_free_text _ "net_provider" (TEMPLATES.get ⟨0, by decide⟩)
    [] 0 "Biznet" rfl (by decide) rfl rfl rfl (by decide) (by decide) (by decide)

/-! ### Claim C8: pagination-token round trip -/

/-- The page: branch of callback_handler, exposed definitionally: every
earlier branch refutes on the token's leading characters. -/
theorem callback_page_eq (ud : UserData) (n : Nat) (q : String) :
    callback_handler ud (mkPageToken n q) =
      (if (pySplit (mkPageToken n q) ':' 2).length = 3 then
        match pyInt ((pySplit (mkPageToken n q) ':' 2).getD 1 "") with
        | none => ⟨ud, .raised, [], []⟩
        | some page =>
          ⟨ud, .endConv,
            [.search ((pySplit (mkPageToken n q) ':' 2).getD 2 "") page ""],
            ["search-results"]⟩
      else ⟨ud, .endConv, [], []⟩) := rfl

/-- Decoding a pagination token re-executes exactly the encoded query at
exactly the encoded page: the colon-delimited encoding is injective
because the router splits at most twice and the page segment never
contains the delimiter. -/
theorem callback_page_roundtrip (ud : UserData) (n : Nat) (q : String) :
    callback_handler ud (mkPageToken n q) =
      ⟨ud, .endConv, [.search q (n : Int) ""], ["search-results"]⟩ := by
  rw [callback_page_eq, pySplit_mkPageToken]
  rw [if_pos (show (["page", natStr n, q] : List String).length = 3 from rfl)]
  rw [show (["page", natStr n, q] : List String).getD 1 "" = natStr n from rfl,
    pyInt_natStr]
  rfl

/-- Claim C8 counterexample (proving the claim's negation): there is no
page number and no colon-containing query for which decoding the
pagination token fails to recover the pair — the router always
re-executes the same query at the same page. -/
theorem page_token_lossy_cex :
    ¬ ∃ (n : Nat) (q : String), strContains q ":" = true ∧
        callback_handler emptyUserData (mkPageToken n q) ≠
          ⟨emptyUserData, .endConv, [.search q (n : Int) ""], ["search-results"]⟩ := by
  rintro ⟨n, q, -, hne⟩
  exact hne (callback_page_roundtrip emptyUserData n q)

/-- Claim C8 (amended): the pagination-token encoding is not lossy — for
every page number and every query, colons included, the router decodes
the token back to exactly that page and query. -/
theorem page_token_roundtrip (n : Nat) (q : String) :
    callback_handler emptyUserData (mkPageToken n q) =
      ⟨emptyUserData, .endConv, [.search q (n : Int) ""], ["search-results"]⟩ :=
  callback_page_roundtrip emptyUserData n q

/-! ### Claim C1: the flow terminates after exactly N inputs -/





theorem runFlow_cons (ud : UserData) (e : PInput) (rest : List PInput) :
    runFlow ud (e :: rest) =
      ((runFlow (dispatch (some STATE_WAITING_PARAM) ud (inputEv e)).ud rest).1,
        (dispatch (some STATE_WAITING_PARAM) ud (inputEv e)).ret ::
          (runFlow (dispatch (some STATE_WAITING_PARAM) ud (inputEv e)).ud rest).2.1,
        (dispatch (some STATE_WAITING_PARAM) ud (inputEv e)).calls ++
          (runFlow (dispatch (some STATE_WAITING_PARAM) ud (inputEv e)).ud rest).2.2) :=
  rfl


theorem collectVals_cons (tmpl : SearchTemplate) (k : Nat)
    (m : List (String × String)) (e : PInput) (rest : List PInput) :
    collectVals tmpl k m (e :: rest) =
      collectVals tmpl (k + 1) (collectVals tmpl k m [e]) rest := by
  cases e <;> rfl

theorem ask_next_mid_complete (tid : String) (tmpl : SearchTemplate)
    (m : List (String × String)) (k : Nat)
    (ht : get_template_by_id tid = some tmpl) (hk : k ≥ tmpl.params.length) :
    ask_next_param (midState tid m k) =
      ⟨⟨none, none, none, some "template_param"⟩, .endConv,
        [.search (build_query tmpl m) 1 tmpl.facets],
        ["running-query", "search-results"]⟩ := by
  rw [ask_next_param_eq]
  simp only [show (midState tid m k).current_template.bind get_template_by_id =
    some tmpl from ht]
  rw [if_pos (show (midState tid m k).param_index.getD 0 ≥ tmpl.params.length from hk)]
  rfl

theorem ask_next_mid_wait (tid : String) (tmpl : SearchTemplate)
    (m : List (String × String)) (k : Nat)
    (ht : get_template_by_id tid = some tmpl) (hk : k < tmpl.params.length) :
    ask_next_param (midState tid m k) =
      ⟨midState tid m k, .state STATE_WAITING_PARAM, [], ["param-prompt"]⟩ := by
  rw [ask_next_param_eq]
  simp only [show (midState tid m k).current_template.bind get_template_by_id =
    some tmpl from ht]
  rw [if_neg (show ¬ (midState tid m k).param_index.getD 0 ≥ tmpl.params.length by
    simp only [midState, Option.getD_some]
    omega)]
  rfl

/-- One value input in the waiting state records the value and hands the
session to _ask_next_param with the index advanced by one. -/
theorem input_step (tid : String) (tmpl : SearchTemplate)
    (m : List (String × String)) (k : Nat)
    (ht : get_template_by_id tid = some tmpl) (hk : k < tmpl.params.length)
    (e : PInput) (he : okInput e) :
    dispatch (some STATE_WAITING_PARAM) (midState tid m k) (inputEv e) =
      ask_next_param (midState tid (collectVals tmpl k m [e]) (k + 1)) := by
  have hbind : (midState tid m k).current_template.bind get_template_by_id =
      some tmpl := ht
  cases e with
  | text v =>
    show handle_param_input (midState tid m k) v = _
    unfold handle_param_input
    rw [if_pos (show (midState tid m k).awaiting.getD "" = "template_param" from rfl)]
    simp only [hbind]
    rw [dif_pos (show (midState tid m k).param_index.getD 0 < tmpl.params.length
      from hk)]
    have hname : (tmpl.params.getD k ⟨"", "", "", true⟩).name =
        (tmpl.params.get ⟨k, hk⟩).name := by
      rw [List.getD_eq_get]
    simp only [collectVals, hname]
    rfl
  | btn p v =>
    show (if (some STATE_WAITING_PARAM : Option Nat) = some STATE_WAITING_PARAM ∧
        strStarts (mkDefaultToken p v) "default:" = true then
        handle_default_param (midState tid m k) (mkDefaultToken p v)
      else callback_handler (midState tid m k) (mkDefaultToken p v)) = _
    rw [if_pos ⟨rfl, strStarts_mkDefaultToken p v⟩]
    unfold handle_default_param
    rw [if_pos (strStarts_mkDefaultToken p v)]
    have hsplit := pySplit_mkDefaultToken p v he
    rw [dif_pos (show (pySplit (mkDefaultToken p v) ':' 2).length = 3 by
      rw [hsplit]; rfl)]
    simp only [hbind,
      show (midState tid m k).template_values = some m from rfl]
    have e1 : ∀ h1 : 1 < (pySplit (mkDefaultToken p v) ':' 2).length,
        (pySplit (mkDefaultToken p v) ':' 2).get ⟨1, h1⟩ = p := by
      intro h1
      rw [List.get_of_eq hsplit]
      rfl
    have e2 : ∀ h2 : 2 < (pySplit (mkDefaultToken p v) ':' 2).length,
        (pySplit (mkDefaultToken p v) ':' 2).get ⟨2, h2⟩ = v := by
      intro h2
      rw [List.get_of_eq hsplit]
      rfl
    rw [e1, e2]
    simp only [collectVals]
    rfl

/-- Running fewer inputs than parameters remain keeps the flow waiting,
advancing the index by one per input and executing nothing. -/
theorem runFlow_partial (tid : String) (tmpl : SearchTemplate)
    (ht : get_template_by_id tid = some tmpl) :
    ∀ (evs : List PInput) (m : List (String × String)) (k : Nat),
      (∀ e ∈ evs, okInput e) → k + evs.length < tmpl.params.length →
      runFlow (midState tid m k) evs =
        (midState tid (collectVals tmpl k m evs) (k + evs.length),
          List.replicate evs.length (.state STATE_WAITING_PARAM), []) := by
  intro evs
  induction evs with
  | nil =>
    intro m k _ _
    simp [runFlow, collectVals]
  | cons e rest ih =>
    intro m k hok hlen
    have hk : k < tmpl.params.length := by
      simp only [List.length_cons] at hlen
      omega
    have hk1 : (k + 1) + rest.length < tmpl.params.length := by
      simp only [List.length_cons] at hlen
      omega
    rw [runFlow_cons, input_step tid tmpl m k ht hk e (hok e (List.mem_cons_self _ _)),
      ask_next_mid_wait tid tmpl _ _ ht (by omega)]
    dsimp only
    rw [ih _ _ (fun x hx => hok x (List.mem_cons_of_mem _ hx)) hk1,
      collectVals_cons tmpl k m e rest]
    simp [List.replicate_succ, Nat.add_assoc, Nat.add_comm, Nat.add_left_comm]

/-- Running exactly the remaining number of inputs completes the flow:
all but the last input keep it waiting, the last one executes the built
query and clears the template-selection keys. -/
theorem runFlow_complete (tid : String) (tmpl : SearchTemplate)
    (ht : get_template_by_id tid = some tmpl) :
    ∀ (evs : List PInput) (m : List (String × String)) (k : Nat),
      (∀ e ∈ evs, okInput e) → k + evs.length = tmpl.params.length → evs ≠ [] →
      runFlow (midState tid m k) evs =
        (⟨none, none, none, some "template_param"⟩,
          List.replicate (evs.length - 1) (.state STATE_WAITING_PARAM) ++ [.endConv],
          [.search (build_query tmpl (collectVals tmpl k m evs)) 1 tmpl.facets]) := by
  intro evs
  induction evs with
  | nil =>
    intro m k _ _ hne
    exact absurd rfl hne
  | cons e rest ih =>
    intro m k hok hlen hne
    have hk : k < tmpl.params.length := by
      simp only [List.length_cons] at hlen
      omega
    rw [runFlow_cons, input_step tid tmpl m k ht hk e (hok e (List.mem_cons_self _ _))]
    rcases rest with _ | ⟨e2, rest2⟩
    · have hk1 : k + 1 ≥ tmpl.params.length := by
        simp only [List.length_cons, List.length_nil] at hlen
        omega
      rw [ask_next_mid_complete tid tmpl _ _ ht hk1]
      simp [runFlow]
    · have hk1 : k + 1 < tmpl.params.length := by
        simp only [List.length_cons] at hlen
        omega
      rw [ask_next_mid_wait tid tmpl _ _ ht hk1]
      dsimp only
      rw [ih _ _ (fun x hx => hok x (List.mem_cons_of_mem _ hx))
        (by simp only [List.length_cons] at hlen ⊢; omega) (by simp),
        collectVals_cons tmpl k m e (e2 :: rest2)]
      simp [List.replicate_succ]

/-- Claim C1: starting the flow with the use button selects the template
with an empty value map at index 0 and awaits the first parameter; each
of the first N-1 value inputs (free text or default button) advances the
index by one and keeps the flow waiting with no query executed; the N-th
input executes exactly one search with the built query and clears the
template-selection state. -/
theorem template_flow_exactly_n_inputs (ud0 : UserData) (tid : String)
    (tmpl : SearchTemplate) (evs : List PInput)
    (ht : get_template_by_id tid = some tmpl)
    (hN : 0 < tmpl.params.length)
    (hok : ∀ e ∈ evs, okInput e)
    (hlen : evs.length = tmpl.params.length) :
    callback_handler ud0 ("use:" ++ tid) =
      ⟨midState tid [] 0, .state STATE_WAITING_PARAM, [], ["param-prompt"]⟩ ∧
    (∀ k, k < tmpl.params.length →
      runFlow (midState tid [] 0) (evs.take k) =
        (midState tid (collectVals tmpl 0 [] (evs.take k)) k,
          List.replicate k (.state STATE_WAITING_PARAM), [])) ∧
    runFlow (midState tid [] 0) evs =
      (⟨none, none, none, some "template_param"⟩,
        List.replicate (tmpl.params.length - 1) (.state STATE_WAITING_PARAM) ++
          [.endConv],
        [.search (build_query tmpl (collectVals tmpl 0 [] evs)) 1 tmpl.facets]) := by
  refine ⟨?_, ?_, ?_⟩
  · rw [callback_use_eq]
    simp only [ht]
    rw [ask_next_param_eq]
    simp only [show (useStart ud0 tid).current_template.bind get_template_by_id =
      some tmpl from ht]
    rw [if_neg (show ¬ (useStart ud0 tid).param_index.getD 0 ≥ tmpl.params.length by
      simp only [useStart, Option.getD_some]
      omega)]
    rfl
  · intro k hklt
    have htake : (evs.take k).length = k := by
      rw [List.length_take]
      omega
    have h := runFlow_partial tid tmpl ht (evs.take k) [] 0
      (fun e he => hok e (List.take_subset _ _ he)) (by rw [htake]; omega)
    rw [htake] at h
    simpa using h
  · have hne : evs ≠ [] := by
      intro hnil
      rw [hnil] at hlen
      simp at hlen
      omega
    have h := runFlow_complete tid tmpl ht evs [] 0 hok (by simpa using hlen) hne
    rwa [hlen] at h

/-- Witness for template_flow_exactly_n_inputs: the two-parameter
net_provider template completed by one free-text input and one default
button press. -/
theorem template_flow_exactly_n_inputs_witness :
    runFlow (midState "net_provider" [] 0)
        [.text "Telkom Indonesia", .btn "country" "ID"] =
      (⟨none, none, none, some "template_param"⟩,
        [.state STATE_WAITING_PARAM, .endConv],
        [.search "org:\"Telkom Indonesia\" country:\"ID\"" 1 ""]) := by
  have h := (template_flow_exactly_n_inputs emptyUserData "net_provider"
    (TEMPLATES.get ⟨0, by decide⟩) [.text "Telkom Indonesia", .btn "country" "ID"]
    (by decide) (by decide) (by decide) (by decide)).2.2
  exact h.trans (by decide)

end ShodanSpec
